import Mathlib

/-!
Shallow embedding of the flash-lag demo's trial engine (src/src/FlashLagGame.jsx).

JS numbers are modelled as exact rationals (ℚ); the claims under study are
about exact arithmetic identities, range membership and state-machine
structure, none of which hinge on binary floating point.  `Math.round` is
JS round-half-toward-+∞, modelled as `⌊x + 1/2⌋`.  `Math.random()` is
modelled as an explicit parameter `u` for the uniform draw.
-/

namespace FlashLag

/-- JS `Math.round`: round half toward positive infinity. -/
def jsRound (q : ℚ) : ℤ := ⌊q + 1/2⌋

/-- `const clamp = (v, a, b) => Math.max(a, Math.min(b, v));` -/
def clamp (v a b : ℚ) : ℚ := max a (min b v)

/-- `const round2 = (v) => Math.round(v * 100) / 100;` -/
def round2 (v : ℚ) : ℚ := (jsRound (v * 100) : ℚ) / 100

/-- `function computeTargetX(w, lead) { return w / 2 - lead; }` -/
def computeTargetX (w lead : ℚ) : ℚ := w / 2 - lead

/-- Character set removed by JS `String.prototype.trim` (ECMAScript WhiteSpace
and LineTerminator code points). -/
def isJsWhitespace (c : Char) : Bool :=
  c.val = 0x09 ∨ c.val = 0x0A ∨ c.val = 0x0B ∨ c.val = 0x0C ∨ c.val = 0x0D ∨
  c.val = 0x20 ∨ c.val = 0xA0 ∨ c.val = 0x1680 ∨
  (0x2000 ≤ c.val ∧ c.val ≤ 0x200A) ∨
  c.val = 0x2028 ∨ c.val = 0x2029 ∨ c.val = 0x202F ∨ c.val = 0x205F ∨
  c.val = 0x3000 ∨ c.val = 0xFEFF

/-- JS `s.trim()`: drop leading and trailing whitespace. -/
def jsTrim (s : String) : String :=
  ⟨((s.data.dropWhile isJsWhitespace).reverse.dropWhile isJsWhitespace).reverse⟩

/-- `canStartTrialLogic(trialIndex, isRun, awaiting, name)` from the source:
refuses while running, with a blank (trimmed-empty) name, or with 3 trials
done; otherwise the first trial needs `!awaiting` and later trials need
`awaiting`. -/
def canStartTrialLogic (trialIndex : ℕ) (isRun awaiting : Bool) (name : String) : Bool :=
  if isRun then false
  else if jsTrim name = "" then false
  else if 3 ≤ trialIndex then false
  else if trialIndex = 0 then !awaiting else awaiting

/-- `pickRandomOffset(min, max)` with the `Math.random()` draw `u` made
explicit: order the bounds, return the constant on a degenerate range,
otherwise take `u*(hi-lo)+lo`, round to the nearest multiple of 5, and
clamp back into `[lo, hi]`. -/
def pickRandomOffset (mn mx u : ℚ) : ℚ :=
  let lo := min mn mx
  let hi := max mn mx
  if hi = lo then lo
  else clamp ((jsRound ((u * (hi - lo) + lo) / 5) : ℚ) * 5) lo hi

/-- The two experiment modes (`MODE_FLASH_LAG` / `MODE_DISAPPEARING`). -/
inductive Mode where
  | flashLag
  | disappearing
deriving DecidableEq, Repr

/-- The two target shapes (`TARGET_PACMAN` / `TARGET_DOT`). -/
inductive TargetShape where
  | pacman
  | dot
deriving DecidableEq, Repr

/-- The user-facing status strings, abstracted to which message is shown
(with its data); the rendered English/Italian text is presentation only. -/
inductive Msg where
  | enterNameToBegin
  | enterNameFirst
  | enterNewName
  | startPrompt (m : Mode)
  | responsePrompt (m : Mode)
  | recordedClickNext
  | allDone (p : String) (avg : ℚ)
  | readyTrial1 (m : Mode)
deriving DecidableEq, Repr

/-- A leaderboard entry / participant summary. -/
structure Summary where
  participant : String
  average_abs_error_px : ℚ
deriving DecidableEq, Repr

/-- The trial row appended to `results` in `onCanvasClick`, field for field. -/
structure TrialRecord where
  participant : String
  trial : ℕ
  mode : Mode
  target_shape : TargetShape
  abs_error_px : ℚ
  speed_px_s : ℚ
  lead_px : ℚ
  disappear_range_min_px : Option ℚ
  disappear_range_max_px : Option ℚ
  flash_yoffset_px : ℚ
  flash_duration_ms : ℚ
  truth_x_px : ℚ
  click_x_px : ℚ
  signed_error_px : ℚ
  timestamp : String
deriving DecidableEq, Repr

/-- The control-panel values (React state fed by the settings sliders),
fixed for the duration of a run in this model, matching the spec's
immutable-per-trial `TrialConfiguration`. -/
structure Settings where
  mode : Mode
  targetShape : TargetShape
  speed : ℚ
  flashLead : ℚ
  rangeMin : ℚ
  rangeMax : ℚ
  flashYOffset : ℚ
  flashDuration : ℚ
deriving DecidableEq, Repr

/-- The slider bounds enforced by the controls in the source
(`LabeledRange` / `RangeField` min/max/step attributes and the
`setDisappearRange` ordering logic). -/
def ValidSettings (st : Settings) : Prop :=
  80 ≤ st.speed ∧ st.speed ≤ 600 ∧
  -60 ≤ st.flashLead ∧ st.flashLead ≤ 200 ∧
  -200 ≤ st.rangeMin ∧ st.rangeMax ≤ 200 ∧ st.rangeMin ≤ st.rangeMax ∧
  -100 ≤ st.flashYOffset ∧ st.flashYOffset ≤ 100 ∧
  20 ≤ st.flashDuration ∧ st.flashDuration ≤ 200

/-- The source's default control values (`useState` initialisers). -/
def defaultSettings : Settings :=
  { mode := Mode.disappearing
    targetShape := TargetShape.pacman
    speed := 280
    flashLead := 80
    rangeMin := -80
    rangeMax := 80
    flashYOffset := 0
    flashDuration := 60 }

/-- `const padding = 24;` -/
def padding : ℚ := 24

/-- The mutable engine + data state: the animation refs (`posRef`,
`lastTsRef`, `runningRef`, `eventTriggeredRef`, `eventXRef`,
`flashHideAtRef`, `currentLeadRef`, `disappearRangeRef`,
`responseWindowRef`) together with the React state the claims touch
(`responseLocked`, `participant`, `trialIdx`, `awaitingNext`,
`stageSize.width`, `results`, `summary`, `summaries`, `message`).
`runningRef` and the `isRunning` state are always assigned together in the
source, so they are one field here. -/
structure GameState where
  pos : ℚ
  lastTs : ℚ
  running : Bool
  eventTriggered : Bool
  eventX : Option ℚ
  flashHideAt : ℚ
  currentLead : ℚ
  rangeMin : ℚ
  rangeMax : ℚ
  responseWindowOpen : Bool
  responseLocked : Bool
  participant : String
  trialIdx : ℕ
  awaitingNext : Bool
  width : ℚ
  results : List TrialRecord
  summary : Option Summary
  summaries : List Summary
  message : Msg
deriving DecidableEq, Repr

/-- The state on mount: refs at their `useRef` initialisers, React state at
its `useState` initialisers. -/
def initialState : GameState :=
  { pos := 0
    lastTs := 0
    running := false
    eventTriggered := false
    eventX := none
    flashHideAt := 0
    currentLead := 0
    rangeMin := -80
    rangeMax := 80
    responseWindowOpen := false
    responseLocked := false
    participant := ""
    trialIdx := 0
    awaitingNext := false
    width := 900
    results := []
    summary := none
    summaries := []
    message := Msg.enterNameToBegin }

/-- Position after the motion update of one `draw` tick:
`dt = (ts - lastTs)/1000` with a first tick treated as zero elapsed
(`if (!lastTsRef.current) lastTsRef.current = ts`), then
`pos += speed * dt`. -/
def tickPos (st : Settings) (ts : ℚ) (s : GameState) : ℚ :=
  s.pos + st.speed * ((ts - (if s.lastTs = 0 then ts else s.lastTs)) / 1000)

/-- One animation tick: the state-mutating part of `draw(ts)`.  A no-op
when not running; otherwise advance the position, fire the event on first
crossing of the trigger x (recording `eventX`, and for disappearing mode
freezing motion and opening the response window), and in flash-lag mode
stop at the right boundary `width - padding` and open the response
window. -/
def tick (st : Settings) (ts : ℚ) (s : GameState) : GameState :=
  if s.running = false then s
  else if s.eventTriggered = false ∧ computeTargetX s.width s.currentLead ≤ tickPos st ts s then
    if st.mode = Mode.flashLag then
      if s.width - padding ≤ tickPos st ts s then
        { s with lastTs := ts, pos := tickPos st ts s, eventTriggered := true,
                 eventX := some (tickPos st ts s), flashHideAt := ts + st.flashDuration,
                 running := false, responseWindowOpen := true,
                 message := Msg.responsePrompt st.mode }
      else
        { s with lastTs := ts, pos := tickPos st ts s, eventTriggered := true,
                 eventX := some (tickPos st ts s), flashHideAt := ts + st.flashDuration }
    else
      { s with lastTs := ts, pos := tickPos st ts s, eventTriggered := true,
               eventX := some (tickPos st ts s),
               running := false, responseWindowOpen := true,
               message := Msg.responsePrompt st.mode }
  else if st.mode = Mode.flashLag ∧ s.width - padding ≤ tickPos st ts s then
    { s with lastTs := ts, pos := tickPos st ts s,
             running := false, responseWindowOpen := true,
             message := Msg.responsePrompt st.mode }
  else
    { s with lastTs := ts, pos := tickPos st ts s }

/-- `startTrial`: refused with only a prompt message when the trimmed name
is empty; otherwise reset the per-trial refs, resolve the trial's lead
(random offset in disappearing mode, the fixed flash lead otherwise),
unlock responses and start running. -/
def startTrial (st : Settings) (u : ℚ) (s : GameState) : GameState :=
  if jsTrim s.participant = "" then { s with message := Msg.enterNameFirst }
  else
    { s with pos := padding, lastTs := 0, eventTriggered := false, eventX := none,
             flashHideAt := 0, responseWindowOpen := false,
             rangeMin := st.rangeMin, rangeMax := st.rangeMax,
             currentLead :=
               if st.mode = Mode.disappearing then pickRandomOffset st.rangeMin st.rangeMax u
               else st.flashLead,
             responseLocked := false, running := true, awaitingNext := false,
             message := Msg.startPrompt st.mode }

/-- `startNewParticipant`: keep prior results/summaries, reset the trial
counter for a fresh 3-trial run. -/
def startNewParticipant (st : Settings) (s : GameState) : GameState :=
  if jsTrim s.participant = "" then { s with message := Msg.enterNewName }
  else { s with summary := none, trialIdx := 0, awaitingNext := false,
                message := Msg.readyTrial1 st.mode }

/-- `stop`: halt the animation. -/
def stopCmd (s : GameState) : GameState :=
  { s with running := false }

/-- `reset`: stop and clear all data and per-trial flags. -/
def resetCmd (s : GameState) : GameState :=
  { s with running := false, results := [], summary := none, summaries := [],
           trialIdx := 0, awaitingNext := false, participant := "",
           responseWindowOpen := false, eventTriggered := false, eventX := none,
           message := Msg.enterNameToBegin }

/-- Typing in the participant name box. -/
def setParticipantName (n : String) (s : GameState) : GameState :=
  { s with participant := n }

/-- The new stage width computed in the `ResizeObserver` callback:
`Math.round(Math.max(320, wrapW))`. -/
def newStageWidth (wrapW : ℚ) : ℚ := (jsRound (max 320 wrapW) : ℚ)

/-- The in-flight x rescaling of the `ResizeObserver` callback:
`padding + (x - padding) * max(1, newW - 2*padding) / max(1, prevW - 2*padding)`. -/
def rescaleX (prevW newW x : ℚ) : ℚ :=
  padding + (x - padding) * (max 1 (newW - padding * 2) / max 1 (prevW - padding * 2))

/-- The `ResizeObserver` callback: when the width actually changes, rescale
the target position and (when set) the event position, then adopt the new
width. -/
def resizeStage (wrapW : ℚ) (s : GameState) : GameState :=
  if s.width = newStageWidth wrapW then s
  else { s with pos := rescaleX s.width (newStageWidth wrapW) s.pos,
                eventX := s.eventX.map (rescaleX s.width (newStageWidth wrapW)),
                width := newStageWidth wrapW }

/-- The `useEffect` that, while not running, mirrors the sliders into
`currentLeadRef` (range midpoint in disappearing mode, the flash lead
otherwise) and `disappearRangeRef`. -/
def syncLeadEffect (st : Settings) (s : GameState) : GameState :=
  if s.running then s
  else if st.mode = Mode.disappearing then
    { s with currentLead := (st.rangeMin + st.rangeMax) / 2,
             rangeMin := st.rangeMin, rangeMax := st.rangeMax }
  else { s with currentLead := st.flashLead }

/-- The record built by an accepted click in `onCanvasClick`, with `ex` the
non-null `eventXRef` value and `now` the timestamp string. -/
def mkTrialRecord (st : Settings) (clickX : ℚ) (now : String) (ex : ℚ) (s : GameState) :
    TrialRecord :=
  { participant := jsTrim s.participant
    trial := s.trialIdx + 1
    mode := st.mode
    target_shape := st.targetShape
    abs_error_px := round2 |clickX - clamp ex padding (s.width - padding)|
    speed_px_s := st.speed
    lead_px := round2 s.currentLead
    disappear_range_min_px := if st.mode = Mode.disappearing then some s.rangeMin else none
    disappear_range_max_px := if st.mode = Mode.disappearing then some s.rangeMax else none
    flash_yoffset_px := st.flashYOffset
    flash_duration_ms := st.flashDuration
    truth_x_px := round2 (clamp ex padding (s.width - padding))
    click_x_px := round2 clickX
    signed_error_px := round2 (clickX - clamp ex padding (s.width - padding))
    timestamp := now }

/-- `upsertLeaderboard` (inlined in `onCanvasClick`'s `setSummaries`):
drop any entry with the new summary's participant name, append the new
summary. -/
def upsertLeaderboard (entries : List Summary) (ns : Summary) : List Summary :=
  (entries.filter fun e => e.participant ≠ ns.participant) ++ [ns]

/-- The per-participant average computed on the third click:
`rows = list.filter(participant match)`, mean of their `abs_error_px`. -/
def summaryAvg (p : String) (rs : List TrialRecord) : ℚ :=
  ((rs.filter fun r => r.participant = p).map fun r => r.abs_error_px).sum /
    ((rs.filter fun r => r.participant = p).length : ℚ)

/-- The summary published after the third click, over the updated record
list. -/
def newSummaryOf (st : Settings) (clickX : ℚ) (now : String) (ex : ℚ) (s : GameState) :
    Summary :=
  { participant := jsTrim s.participant
    average_abs_error_px :=
      round2 (summaryAvg (jsTrim s.participant)
        (s.results ++ [mkTrialRecord st clickX now ex s])) }

/-- The state mutation of an accepted click (the body of `onCanvasClick`
past its guards), with `ex` the non-null `eventXRef` value. -/
def scoredState (st : Settings) (clickX : ℚ) (now : String) (ex : ℚ) (s : GameState) :
    GameState :=
  if 3 ≤ s.trialIdx + 1 then
    { s with responseWindowOpen := false, running := false,
             results := s.results ++ [mkTrialRecord st clickX now ex s],
             responseLocked := true, trialIdx := s.trialIdx + 1,
             summary := some (newSummaryOf st clickX now ex s),
             summaries := upsertLeaderboard s.summaries (newSummaryOf st clickX now ex s),
             awaitingNext := false,
             message := Msg.allDone (jsTrim s.participant)
               (newSummaryOf st clickX now ex s).average_abs_error_px }
  else
    { s with responseWindowOpen := false, running := false,
             results := s.results ++ [mkTrialRecord st clickX now ex s],
             responseLocked := true, trialIdx := s.trialIdx + 1,
             awaitingNext := true, message := Msg.recordedClickNext }

/-- `onCanvasClick`: silently ignore the click while locked, outside the
response window, or before the event fired; otherwise score it. -/
def onCanvasClick (st : Settings) (clickX : ℚ) (now : String) (s : GameState) : GameState :=
  if s.responseLocked = true then s
  else if s.responseWindowOpen = false then s
  else if s.eventTriggered = false then s
  else
    match s.eventX with
    | none => s
    | some ex => scoredState st clickX now ex s

/-- The guard of `onCanvasClick` as a predicate: a click is scored exactly
when this holds. -/
def clickScorable (s : GameState) : Bool :=
  !s.responseLocked && s.responseWindowOpen && s.eventTriggered && s.eventX.isSome

/-- States reachable from the mounted component under a fixed control
configuration, via the engine's transitions: start, tick, click, stop,
reset, plus the new-participant command, name edits, resizes and the
lead-syncing effect. -/
inductive Reachable (st : Settings) : GameState → Prop where
  | init : Reachable st initialState
  | stepStart (u : ℚ) {s : GameState} :
      Reachable st s → Reachable st (startTrial st u s)
  | stepTick (ts : ℚ) {s : GameState} :
      Reachable st s → Reachable st (tick st ts s)
  | stepClick (x : ℚ) (now : String) {s : GameState} :
      Reachable st s → Reachable st (onCanvasClick st x now s)
  | stepStop {s : GameState} : Reachable st s → Reachable st (stopCmd s)
  | stepReset {s : GameState} : Reachable st s → Reachable st (resetCmd s)
  | stepNewParticipant {s : GameState} :
      Reachable st s → Reachable st (startNewParticipant st s)
  | stepSetName (n : String) {s : GameState} :
      Reachable st s → Reachable st (setParticipantName n s)
  | stepResize (wrapW : ℚ) {s : GameState} :
      Reachable st s → Reachable st (resizeStage wrapW s)
  | stepSyncLead {s : GameState} :
      Reachable st s → Reachable st (syncLeadEffect st s)

/-- The inductive invariant carried through `Reachable`: the ground-truth
slot is filled exactly when the event fired, an open response window means
the event fired, the stage never shrinks below the observer's 320px floor,
and in flash-lag mode the trial lead stays within the flash-lead slider's
reach (so the trigger x stays left of the stop boundary). -/
def EngineInv (st : Settings) (s : GameState) : Prop :=
  s.eventX.isSome = s.eventTriggered ∧
  (s.responseWindowOpen = true → s.eventTriggered = true) ∧
  320 ≤ s.width ∧
  (st.mode = Mode.flashLag → -60 ≤ s.currentLead)

/-- A mid-trial disappearing-mode state just before the trigger: the trial
lead is 80 (trigger x 370 on the 900px stage), the target sits at 360 and
the previous frame was at timestamp 1000. -/
def preTriggerState : GameState :=
  { initialState with participant := "A", running := true, currentLead := 80,
                      lastTs := 1000, pos := 360 }

/-- A response-window state ready to accept a click, with ground truth
recorded at x = 400. -/
def clickReadyState : GameState :=
  { initialState with participant := "A", responseWindowOpen := true,
                      eventTriggered := true, eventX := some 400, pos := 400 }

/-- A completed trial row for participant "A" with the given trial ordinal
and absolute error (all other bookkeeping fields at the defaults). -/
def dummyRecord (n : ℕ) (e : ℚ) : TrialRecord :=
  { participant := "A", trial := n, mode := Mode.disappearing,
    target_shape := TargetShape.pacman,
    abs_error_px := e, speed_px_s := 280, lead_px := 0,
    disappear_range_min_px := some (-80), disappear_range_max_px := some 80,
    flash_yoffset_px := 0, flash_duration_ms := 60,
    truth_x_px := 400, click_x_px := 400 + e, signed_error_px := e, timestamp := "t" }

/-- "A" finished a 3-trial run (errors 10, 10, 10), re-entered the same
name via the new-participant command, and is now one click away from
finishing a second run whose first two trials had error 0. -/
def staleRecordsState : GameState :=
  { initialState with participant := "A", trialIdx := 2,
                      responseWindowOpen := true, eventTriggered := true, eventX := some 400,
                      results := [dummyRecord 1 10, dummyRecord 2 10, dummyRecord 3 10,
                                  dummyRecord 1 0, dummyRecord 2 0] }

/-- Participant "A" one click away from completing their only 3-trial run,
the first two trials having errors 6 and 12. -/
def twoRecordsState : GameState :=
  { initialState with participant := "A", trialIdx := 2,
                      responseWindowOpen := true, eventTriggered := true, eventX := some 400,
                      results := [dummyRecord 1 6, dummyRecord 2 12] }

/-- Leaderboard fixtures for the upsert property. -/
def sumB : Summary := { participant := "B", average_abs_error_px := 3 }

def sumOldA : Summary := { participant := "A", average_abs_error_px := 5 }

def sumNewA : Summary := { participant := "A", average_abs_error_px := 4 }

/-- A whitespace-only participant name state. -/
def wsNameState : GameState :=
  { initialState with participant := " \t " }

/-! ## Theorems -/

/-- C9: `clamp` is idempotent for all arguments, and for `a ≤ b` its value
lies in `[a, b]`. -/
theorem c9_clamp_idempotent_and_in_range (v a b : ℚ) :
    clamp (clamp v a b) a b = clamp v a b ∧
    (a ≤ b → a ≤ clamp v a b ∧ clamp v a b ≤ b) := by
  unfold clamp
  rcases le_total a b with hab | hab
  · have hc : max a (min b v) ≤ b := max_le hab (min_le_left _ _)
    refine ⟨?_, fun _ => ⟨le_max_left _ _, hc⟩⟩
    rw [min_eq_right hc, max_eq_right (le_max_left a (min b v))]
  · have hc : max a (min b v) = a := max_eq_left (le_trans (min_le_left _ _) hab)
    refine ⟨?_, fun h => ⟨le_max_left _ _, max_le h (min_le_left _ _)⟩⟩
    rw [hc, min_eq_left hab, max_eq_left hab]

/-- C9 witness: the theorem at `v = 5`, `a = 0`, `b = 10`, with the
hypothesis `a ≤ b` discharged. -/
theorem c9_witness :
    (0 : ℚ) ≤ 10 ∧ (0 ≤ clamp 5 0 10 ∧ clamp 5 0 10 ≤ 10) :=
  ⟨by norm_num, (c9_clamp_idempotent_and_in_range 5 0 10).2 (by norm_num)⟩

/-- C5 counterexample: with bounds `1 < 9` and draw `u = 0.99`, the raw
value `8.92` rounds to the multiple `10`, which is clamped to `9` — inside
the range but not a multiple of 5, refuting the multiple-of-5 clause for
arbitrary bounds. -/
theorem c5_counterexample :
    pickRandomOffset 1 9 (99 / 100) = 9 ∧ ∀ m : ℤ, (9 : ℚ) ≠ 5 * m := by
  constructor
  · norm_num [pickRandomOffset, clamp, jsRound, min_def, max_def]
  · intro m h
    have h9 : (9 : ℤ) = 5 * m := by exact_mod_cast h
    omega

/-- C5 (amended): a degenerate range always returns its constant; for
`min < max` the result always lies in `[min, max]` for every draw; and the
result is a multiple of 5 whenever both bounds are multiples of 5 (which
the step-5 sliders guarantee) — clamping may otherwise land on a
non-multiple endpoint. -/
theorem c5_offset_sampling (mn mx u : ℚ) :
    pickRandomOffset mn mn u = mn ∧
    (mn < mx → mn ≤ pickRandomOffset mn mx u ∧ pickRandomOffset mn mx u ≤ mx) ∧
    (mn < mx → (∃ a : ℤ, mn = 5 * a) → (∃ b : ℤ, mx = 5 * b) →
      ∃ c : ℤ, pickRandomOffset mn mx u = 5 * c) := by
  refine ⟨by simp [pickRandomOffset], ?_, ?_⟩
  · intro h
    unfold pickRandomOffset clamp
    rw [min_eq_left h.le, max_eq_right h.le, if_neg (ne_of_gt h)]
    exact ⟨le_max_left _ _, max_le h.le (min_le_left _ _)⟩
  · intro h ⟨a, ha⟩ ⟨b, hb⟩
    unfold pickRandomOffset clamp
    rw [min_eq_left h.le, max_eq_right h.le, if_neg (ne_of_gt h)]
    set k := jsRound ((u * (mx - mn) + mn) / 5) with hk
    rcases min_cases mx ((k : ℚ) * 5) with ⟨hmin, _⟩ | ⟨hmin, _⟩ <;>
      rw [hmin] <;>
      [rcases max_cases mn mx with ⟨hmax, _⟩ | ⟨hmax, _⟩;
       rcases max_cases mn ((k : ℚ) * 5) with ⟨hmax, _⟩ | ⟨hmax, _⟩] <;>
      rw [hmax]
    · exact ⟨a, ha⟩
    · exact ⟨b, hb⟩
    · exact ⟨a, ha⟩
    · exact ⟨k, by ring⟩

/-- C5 witness: the amended theorem at `min = -80`, `max = 80`,
`u = 1/2`, with every hypothesis discharged. -/
theorem c5_witness :
    (-80 : ℚ) < 80 ∧
    (-80 ≤ pickRandomOffset (-80) 80 (1/2) ∧ pickRandomOffset (-80) 80 (1/2) ≤ 80) ∧
    (∃ c : ℤ, pickRandomOffset (-80) 80 (1/2) = 5 * c) :=
  ⟨by norm_num,
   (c5_offset_sampling (-80) 80 (1/2)).2.1 (by norm_num),
   (c5_offset_sampling (-80) 80 (1/2)).2.2 (by norm_num) ⟨-16, by norm_num⟩ ⟨16, by norm_num⟩⟩

/-- C6 counterexample: with one trial done, not running, a non-empty name
and `awaitingNext = false` (the response window of trial 2, before the
click), the claim's conditions for permitting a start hold yet the gate
refuses; with the engine running, or with a blanked name, the gate refuses
even though the claim's next-trial clause (awaiting after a non-final
trial) holds. -/
theorem c6_counterexample :
    (canStartTrialLogic 1 false false "A" = false ∧
      jsTrim "A" ≠ "" ∧ 1 < 3) ∧
    canStartTrialLogic 1 true true "A" = false ∧
    canStartTrialLogic 1 false true "" = false := by
  decide

/-- C6 (amended): the single start/next gate permits the command iff the
engine is not running, the trimmed name is non-empty, fewer than 3 trials
are done, and the awaiting-next flag is clear for the first trial
respectively set for a later one. -/
theorem c6_start_gating (idx : ℕ) (run awaiting : Bool) (name : String) :
    canStartTrialLogic idx run awaiting name = true ↔
      (run = false ∧ jsTrim name ≠ "" ∧ idx < 3 ∧
        (if idx = 0 then awaiting = false else awaiting = true)) := by
  unfold canStartTrialLogic
  split_ifs with h1 h2 h3 h4 <;> simp_all

/-- Upserting keeps exactly the new summary under its own name. -/
theorem filter_upsert_self (entries : List Summary) (ns : Summary) :
    ((upsertLeaderboard entries ns).filter fun e => e.participant = ns.participant) = [ns] := by
  unfold upsertLeaderboard
  induction entries with
  | nil => simp
  | cons a t ih =>
    by_cases h : a.participant = ns.participant <;> simp [h, ih]

/-- Upserting leaves every other name's entries untouched. -/
theorem filter_upsert_other (entries : List Summary) (ns : Summary) (q : String)
    (hq : q ≠ ns.participant) :
    ((upsertLeaderboard entries ns).filter fun e => e.participant = q) =
      entries.filter fun e => e.participant = q := by
  have hq' : ¬ (ns.participant = q) := fun h => hq h.symm
  unfold upsertLeaderboard
  rw [List.filter_append]
  have hns : ([ns].filter fun e => e.participant = q) = [] := by simp [hq']
  rw [hns, List.append_nil, List.filter_filter]
  refine List.filter_congr ?_
  intro e _
  by_cases h2 : e.participant = q
  · have h3 : e.participant ≠ ns.participant := fun hc => hq' (by rw [← hc, h2])
    simp [h2, h3, hq]
  · simp [h2]

/-- C7: re-upserting a summary for a name already on the leaderboard leaves
exactly one entry for that name, holding the latest value, and leaves every
other name's entries unchanged. -/
theorem c7_upsert_dedup (entries : List Summary) (s1 s2 : Summary)
    (hname : s1.participant = s2.participant) :
    ((upsertLeaderboard (upsertLeaderboard entries s1) s2).filter
        fun e => e.participant = s2.participant) = [s2] ∧
    ∀ q, q ≠ s2.participant →
      ((upsertLeaderboard (upsertLeaderboard entries s1) s2).filter
          fun e => e.participant = q) =
        entries.filter fun e => e.participant = q := by
  refine ⟨filter_upsert_self _ s2, fun q hq => ?_⟩
  rw [filter_upsert_other _ s2 q hq, filter_upsert_other entries s1 q (hname ▸ hq)]

/-- C7 witness: the theorem on the board `[B ↦ 3]` after two summaries for
"A" (values 5 then 4), hypotheses discharged. -/
theorem c7_witness :
    sumOldA.participant = sumNewA.participant ∧
    ((upsertLeaderboard (upsertLeaderboard [sumB] sumOldA) sumNewA).filter
        fun e => e.participant = sumNewA.participant) = [sumNewA] ∧
    ((upsertLeaderboard (upsertLeaderboard [sumB] sumOldA) sumNewA).filter
        fun e => e.participant = "B") = [sumB].filter fun e => e.participant = "B" :=
  ⟨rfl, (c7_upsert_dedup [sumB] sumOldA sumNewA rfl).1,
   (c7_upsert_dedup [sumB] sumOldA sumNewA rfl).2 "B" (by decide)⟩

/-- A name made only of whitespace trims to the empty string. -/
theorem jsTrim_eq_empty_of_whitespace {s : String}
    (h : ∀ c ∈ s.data, isJsWhitespace c = true) : jsTrim s = "" := by
  unfold jsTrim
  rw [List.dropWhile_eq_nil_iff.mpr (fun c hc => h c hc)]
  rfl

/-- C10: a whitespace-only participant name behaves exactly like an empty
one — the start gate returns false for every engine flag combination, and
the start command is refused with only the name-prompt message set. -/
theorem c10_whitespace_name (st : Settings) (u : ℚ) (s : GameState)
    (idx : ℕ) (run awaiting : Bool)
    (h : ∀ c ∈ s.participant.data, isJsWhitespace c = true) :
    startTrial st u s = { s with message := Msg.enterNameFirst } ∧
    canStartTrialLogic idx run awaiting s.participant = false := by
  have ht := jsTrim_eq_empty_of_whitespace h
  constructor
  · unfold startTrial
    rw [if_pos ht]
  · unfold canStartTrialLogic
    simp [ht]

/-- C10 witness: the theorem at the `" \t "` name, hypotheses discharged. -/
theorem c10_witness :
    (∀ c ∈ wsNameState.participant.data, isJsWhitespace c = true) ∧
    startTrial defaultSettings 0 wsNameState =
      { wsNameState with message := Msg.enterNameFirst } ∧
    canStartTrialLogic 0 false false wsNameState.participant = false :=
  ⟨by decide, c10_whitespace_name defaultSettings 0 wsNameState 0 false false (by decide)⟩

/-- The observer never reports a stage narrower than 320 CSS px. -/
theorem newStageWidth_ge (wrapW : ℚ) : 320 ≤ newStageWidth wrapW := by
  unfold newStageWidth jsRound
  have h : (320 : ℤ) ≤ ⌊max 320 wrapW + 1/2⌋ := by
    refine Int.le_floor.mpr ?_
    have := le_max_left (320 : ℚ) wrapW
    push_cast
    linarith
  exact_mod_cast h

/-- For stage widths at or above the 320px floor, the source's guarded
scale collapses to the plain playable-width ratio. -/
theorem rescaleX_eq_ratio (prevW newW x : ℚ) (h1 : 320 ≤ prevW) (h2 : 320 ≤ newW) :
    rescaleX prevW newW x = padding + (x - padding) * ((newW - 2 * padding) / (prevW - 2 * padding)) := by
  unfold rescaleX padding
  rw [max_eq_right (by linarith : (1:ℚ) ≤ newW - 24 * 2),
      max_eq_right (by linarith : (1:ℚ) ≤ prevW - 24 * 2)]
  ring_nf

/-- C8: a mid-trial stage-width change rescales the target position and
any recorded event position by
`padding + (old - padding) * (newW - 2*padding) / (oldW - 2*padding)`;
at widths 900 → 600 with padding 24 a target at 450 lands exactly at 300. -/
theorem c8_resize_rescale (s : GameState) (wrapW : ℚ)
    (hw : 320 ≤ s.width) (hne : s.width ≠ newStageWidth wrapW) :
    (resizeStage wrapW s).pos =
      padding + (s.pos - padding) *
        ((newStageWidth wrapW - 2 * padding) / (s.width - 2 * padding)) ∧
    (resizeStage wrapW s).eventX = s.eventX.map
      (fun x => padding + (x - padding) *
        ((newStageWidth wrapW - 2 * padding) / (s.width - 2 * padding))) ∧
    rescaleX 900 600 450 = 300 := by
  have hnew := newStageWidth_ge wrapW
  have hrs := fun x => rescaleX_eq_ratio s.width (newStageWidth wrapW) x hw hnew
  unfold resizeStage
  rw [if_neg hne]
  refine ⟨hrs s.pos, ?_, ?_⟩
  · show Option.map _ s.eventX = Option.map _ s.eventX
    cases s.eventX with
    | none => rfl
    | some x => simp [hrs x]
  · rw [rescaleX_eq_ratio 900 600 450 (by norm_num) (by norm_num)]
    norm_num [padding]

/-- C8 witness: the theorem applied to the initial 900px stage shrinking to
a 600px wrapper, hypotheses discharged. -/
theorem c8_witness :
    (320 : ℚ) ≤ initialState.width ∧ initialState.width ≠ newStageWidth 600 ∧
    rescaleX 900 600 450 = 300 :=
  ⟨by norm_num [initialState],
   by norm_num [initialState, newStageWidth, jsRound],
   (c8_resize_rescale initialState 600 (by norm_num [initialState])
      (by norm_num [initialState, newStageWidth, jsRound])).2.2⟩

/-- A click that fails any of the guards of `onCanvasClick` leaves the
whole state untouched. -/
theorem onCanvasClick_not_scorable (st : Settings) (x : ℚ) (now : String) (s : GameState)
    (h : clickScorable s = false) : onCanvasClick st x now s = s := by
  unfold clickScorable at h
  unfold onCanvasClick
  split_ifs with h1 h2 h3
  · rfl
  · rfl
  · rfl
  · cases hx : s.eventX with
    | none => rfl
    | some ex =>
      exfalso
      simp only [Bool.not_eq_true, Bool.not_eq_false] at h1 h2 h3
      rw [h1, h2, h3, hx] at h
      simp at h

/-- A click that passes the guards of `onCanvasClick` is scored on the
recorded event position. -/
theorem onCanvasClick_scorable (st : Settings) (x : ℚ) (now : String) (s : GameState)
    (h : clickScorable s = true) :
    onCanvasClick st x now s = scoredState st x now (s.eventX.getD 0) s := by
  unfold clickScorable at h
  simp only [Bool.and_eq_true, Bool.not_eq_true'] at h
  obtain ⟨⟨⟨hl, hw⟩, ht⟩, hx⟩ := h
  cases hxx : s.eventX with
  | none => rw [hxx] at hx; simp at hx
  | some ex =>
    unfold onCanvasClick
    rw [if_neg (by simp [hl]), if_neg (by simp [hw]), if_neg (by simp [ht]), hxx]
    rfl

/-- In flash-lag mode the trigger x never lies past the stop boundary, for
any stage the observer can report and any lead the flash-lead slider can
produce. -/
theorem targetX_le_boundary (w lead : ℚ) (hw : 320 ≤ w) (hl : -60 ≤ lead) :
    computeTargetX w lead ≤ w - padding := by
  unfold computeTargetX padding
  linarith

/-- Every state reachable under slider-valid controls satisfies the engine
invariant. -/
theorem reachable_inv (st : Settings) (hv : ValidSettings st) {s : GameState}
    (hr : Reachable st s) : EngineInv st s := by
  obtain ⟨-, -, hl1, -, -, -, -, -, -, -, -⟩ := hv
  induction hr with
  | init =>
    exact ⟨rfl, fun hh => hh, by norm_num [initialState], fun _ => by norm_num [initialState]⟩
  | stepStart u h ih =>
    obtain ⟨ih1, ih2, ih3, ih4⟩ := ih
    unfold startTrial
    split_ifs with hname hdis
    · exact ⟨ih1, ih2, ih3, ih4⟩
    · exact ⟨rfl, fun hh => hh, ih3, fun hm => absurd (hm.symm.trans hdis) (by simp)⟩
    · exact ⟨rfl, fun hh => hh, ih3, fun _ => hl1⟩
  | stepTick ts h ih =>
    obtain ⟨ih1, ih2, ih3, ih4⟩ := ih
    unfold tick
    split_ifs with h1 h2 h3 h4 h5
    · exact ⟨ih1, ih2, ih3, ih4⟩
    · exact ⟨rfl, fun _ => rfl, ih3, ih4⟩
    · exact ⟨rfl, fun _ => rfl, ih3, ih4⟩
    · exact ⟨rfl, fun _ => rfl, ih3, ih4⟩
    · refine ⟨ih1, fun _ => ?_, ih3, ih4⟩
      rcases Bool.eq_false_or_eq_true (GameState.eventTriggered _) with htr | htr
      · exact htr
      · exact absurd ⟨htr, le_trans
          (targetX_le_boundary _ _ ih3 (ih4 h5.1)) h5.2⟩ h2
    · exact ⟨ih1, ih2, ih3, ih4⟩
  | stepClick x now h ih =>
    obtain ⟨ih1, ih2, ih3, ih4⟩ := ih
    rcases Bool.eq_false_or_eq_true (clickScorable _) with hsc | hsc
    · rw [onCanvasClick_scorable st x now _ hsc]
      unfold scoredState
      split_ifs <;> exact ⟨ih1, fun hh => Bool.noConfusion hh, ih3, ih4⟩
    · rw [onCanvasClick_not_scorable st x now _ hsc]
      exact ⟨ih1, ih2, ih3, ih4⟩
  | stepStop h ih =>
    obtain ⟨ih1, ih2, ih3, ih4⟩ := ih
    exact ⟨ih1, ih2, ih3, ih4⟩
  | stepReset h ih =>
    obtain ⟨ih1, ih2, ih3, ih4⟩ := ih
    exact ⟨rfl, fun hh => hh, ih3, ih4⟩
  | stepNewParticipant h ih =>
    obtain ⟨ih1, ih2, ih3, ih4⟩ := ih
    unfold startNewParticipant
    split_ifs <;> exact ⟨ih1, ih2, ih3, ih4⟩
  | stepSetName n h ih =>
    obtain ⟨ih1, ih2, ih3, ih4⟩ := ih
    exact ⟨ih1, ih2, ih3, ih4⟩
  | stepResize wrapW h ih =>
    obtain ⟨ih1, ih2, ih3, ih4⟩ := ih
    unfold resizeStage
    split_ifs
    · exact ⟨ih1, ih2, ih3, ih4⟩
    · exact ⟨by simpa using ih1, ih2, newStageWidth_ge wrapW, ih4⟩
  | stepSyncLead h ih =>
    obtain ⟨ih1, ih2, ih3, ih4⟩ := ih
    unfold syncLeadEffect
    split_ifs with hrun hmode
    · exact ⟨ih1, ih2, ih3, ih4⟩
    · exact ⟨ih1, ih2, ih3, fun hm => absurd (hm.symm.trans hmode) (by simp)⟩
    · exact ⟨ih1, ih2, ih3, fun _ => hl1⟩

/-- C3: in every reachable state of the engine (under slider-valid
controls), the recorded event position is non-null exactly when the event
has triggered, an open response window implies the event has triggered, and
a click is scorable exactly when the response window is open, the event has
triggered and the response is not locked. -/
theorem c3_engine_invariants (st : Settings) (s : GameState)
    (hv : ValidSettings st) (hr : Reachable st s) :
    s.eventX.isSome = s.eventTriggered ∧
    (s.responseWindowOpen = true → s.eventTriggered = true) ∧
    clickScorable s = (s.responseWindowOpen && s.eventTriggered && !s.responseLocked) := by
  obtain ⟨h1, h2, -, -⟩ := reachable_inv st hv hr
  refine ⟨h1, h2, ?_⟩
  unfold clickScorable
  rw [h1]
  cases s.responseLocked <;> cases s.responseWindowOpen <;> cases s.eventTriggered <;> rfl

/-- C3 witness: the theorem at the default controls and the mounted
state, hypotheses discharged. -/
theorem c3_witness :
    ValidSettings defaultSettings ∧
    (initialState.eventX.isSome = initialState.eventTriggered ∧
      (initialState.responseWindowOpen = true → initialState.eventTriggered = true) ∧
      clickScorable initialState =
        (initialState.responseWindowOpen && initialState.eventTriggered &&
          !initialState.responseLocked)) :=
  ⟨by norm_num [ValidSettings, defaultSettings],
   c3_engine_invariants defaultSettings initialState
     (by norm_num [ValidSettings, defaultSettings]) Reachable.init⟩

/-- C4: a click failing any guard (premature, outside the window, or after
a recorded response) changes nothing; an accepted click appends exactly one
record and locks responses, and any further click before the next
start/next command changes nothing more. -/
theorem c4_click_atomicity (st : Settings) (x : ℚ) (now : String) (s : GameState) :
    (clickScorable s = false → onCanvasClick st x now s = s) ∧
    (clickScorable s = true →
      (onCanvasClick st x now s).results =
        s.results ++ [mkTrialRecord st x now (s.eventX.getD 0) s] ∧
      (onCanvasClick st x now s).responseLocked = true ∧
      ∀ x2 now2, onCanvasClick st x2 now2 (onCanvasClick st x now s) = onCanvasClick st x now s) := by
  refine ⟨onCanvasClick_not_scorable st x now s, fun hsc => ?_⟩
  rw [onCanvasClick_scorable st x now s hsc]
  have hres : (scoredState st x now (s.eventX.getD 0) s).results =
      s.results ++ [mkTrialRecord st x now (s.eventX.getD 0) s] := by
    unfold scoredState
    split_ifs <;> rfl
  have hlock : (scoredState st x now (s.eventX.getD 0) s).responseLocked = true := by
    unfold scoredState
    split_ifs <;> rfl
  refine ⟨hres, hlock, fun x2 now2 => ?_⟩
  apply onCanvasClick_not_scorable
  unfold clickScorable
  rw [hlock]
  rfl

/-- C4 witness: the theorem at a concrete scorable response-window state,
hypotheses discharged. -/
theorem c4_witness :
    clickScorable clickReadyState = true ∧
    (onCanvasClick defaultSettings 430 "t0" clickReadyState).results =
      clickReadyState.results ++
        [mkTrialRecord defaultSettings 430 "t0" (clickReadyState.eventX.getD 0) clickReadyState] ∧
    (onCanvasClick defaultSettings 430 "t0" clickReadyState).responseLocked = true :=
  ⟨rfl,
   ((c4_click_atomicity defaultSettings 430 "t0" clickReadyState).2 rfl).1,
   ((c4_click_atomicity defaultSettings 430 "t0" clickReadyState).2 rfl).2.1⟩

/-- C1 counterexample: in disappearing mode with trigger x 370, a tick that
carries the target from 360 to 388 records the event position as 388 — the
crossing position, not the trigger position — and freezes the target there,
while motion does stop and the response window does open on that tick. -/
theorem c1_counterexample :
    computeTargetX preTriggerState.width preTriggerState.currentLead = 370 ∧
    (tick defaultSettings 1100 preTriggerState).eventX = some 388 ∧
    (tick defaultSettings 1100 preTriggerState).pos = 388 ∧
    ((388 : ℚ) ≠ 370) ∧
    (tick defaultSettings 1100 preTriggerState).running = false ∧
    (tick defaultSettings 1100 preTriggerState).responseWindowOpen = true := by
  norm_num [tick, tickPos, computeTargetX, preTriggerState, initialState, defaultSettings,
    padding]
  simp

/-- C1 (amended): on the first tick whose updated position reaches the
trigger x in disappearing mode, the target's position and the recorded
event position are both frozen at that updated position (which may
overshoot the trigger x by up to one tick's advance); motion stops on that
same tick and the response window opens. -/
theorem c1_disappear_freeze (st : Settings) (ts : ℚ) (s : GameState)
    (hm : st.mode = Mode.disappearing)
    (hrun : s.running = true) (htrig : s.eventTriggered = false)
    (hcross : computeTargetX s.width s.currentLead ≤ tickPos st ts s) :
    (tick st ts s).pos = tickPos st ts s ∧
    (tick st ts s).eventX = some (tickPos st ts s) ∧
    (tick st ts s).eventTriggered = true ∧
    (tick st ts s).running = false ∧
    (tick st ts s).responseWindowOpen = true := by
  unfold tick
  rw [if_neg (by simp [hrun]), if_pos ⟨htrig, hcross⟩, if_neg (by simp [hm])]
  exact ⟨rfl, rfl, rfl, rfl, rfl⟩

/-- C1 witness: the amended theorem at the concrete pre-trigger state,
hypotheses discharged. -/
theorem c1_witness :
    (defaultSettings.mode = Mode.disappearing ∧ preTriggerState.running = true ∧
      preTriggerState.eventTriggered = false ∧
      computeTargetX preTriggerState.width preTriggerState.currentLead ≤
        tickPos defaultSettings 1100 preTriggerState) ∧
    ((tick defaultSettings 1100 preTriggerState).pos =
        tickPos defaultSettings 1100 preTriggerState ∧
      (tick defaultSettings 1100 preTriggerState).eventX =
        some (tickPos defaultSettings 1100 preTriggerState) ∧
      (tick defaultSettings 1100 preTriggerState).eventTriggered = true ∧
      (tick defaultSettings 1100 preTriggerState).running = false ∧
      (tick defaultSettings 1100 preTriggerState).responseWindowOpen = true) :=
  ⟨⟨rfl, rfl, rfl,
    by norm_num [computeTargetX, tickPos, preTriggerState, initialState, defaultSettings]⟩,
   c1_disappear_freeze defaultSettings 1100 preTriggerState rfl rfl rfl
     (by norm_num [computeTargetX, tickPos, preTriggerState, initialState, defaultSettings])⟩

/-- Trimming the one-letter name "A" is the identity. -/
theorem jsTrim_A : jsTrim "A" = "A" := by decide

/-- C2 counterexample: participant "A" finished one 3-trial run with
absolute errors 10, 10, 10, re-entered the same name, and finishes a second
run whose three trials all have absolute error 0; the published summary
value is 5 (the mean over all six same-name records), not 0, the mean of
the three records of the completed run. -/
theorem c2_counterexample :
    (onCanvasClick defaultSettings 400 "t6" staleRecordsState).summary =
      some { participant := "A", average_abs_error_px := 5 } ∧
    round2 ((0 + 0 + 0) / 3) = 0 ∧ ((5 : ℚ) ≠ 0) := by
  refine ⟨?_, by norm_num [round2, jsRound], by norm_num⟩
  rw [onCanvasClick_scorable defaultSettings 400 "t6" staleRecordsState rfl]
  unfold scoredState
  rw [if_pos (by norm_num [staleRecordsState, initialState])]
  show some (newSummaryOf defaultSettings 400 "t6"
    (staleRecordsState.eventX.getD 0) staleRecordsState) = _
  norm_num [newSummaryOf, summaryAvg, mkTrialRecord, dummyRecord, staleRecordsState,
    initialState, defaultSettings, jsTrim_A, clamp, min_def, max_def, round2, jsRound,
    padding, List.filter]

/-- C2 (amended): an accepted third click publishes a summary whose value
is the 2-decimal rounding of the mean absolute error over all records in
the process-wide list carrying the participant's trimmed name; when that
list holds exactly the participant's two earlier records, this is the mean
over exactly the three records of the run. -/
theorem c2_third_click_summary (st : Settings) (x : ℚ) (now : String) (s : GameState)
    (hsc : clickScorable s = true) (hidx : s.trialIdx = 2) :
    (onCanvasClick st x now s).summary =
      some (newSummaryOf st x now (s.eventX.getD 0) s) ∧
    ∀ r1 r2 : TrialRecord,
      (s.results.filter fun r => r.participant = jsTrim s.participant) = [r1, r2] →
      (newSummaryOf st x now (s.eventX.getD 0) s).average_abs_error_px =
        round2 ((r1.abs_error_px + r2.abs_error_px +
          (mkTrialRecord st x now (s.eventX.getD 0) s).abs_error_px) / 3) := by
  constructor
  · rw [onCanvasClick_scorable st x now s hsc]
    unfold scoredState
    rw [if_pos (by omega : 3 ≤ s.trialIdx + 1)]
  · intro r1 r2 hfilter
    unfold newSummaryOf summaryAvg
    rw [List.filter_append, hfilter]
    have hmk : ((([mkTrialRecord st x now (s.eventX.getD 0) s]).filter
        fun r => r.participant = jsTrim s.participant) =
        [mkTrialRecord st x now (s.eventX.getD 0) s]) := by
      simp [mkTrialRecord]
    rw [hmk]
    simp only [List.map_append, List.sum_append, List.map_cons, List.map_nil,
      List.sum_cons, List.sum_nil, List.length_append, List.length_cons, List.length_nil]
    norm_num

/-- C2 witness: the amended theorem at a state holding exactly the two
earlier records of the run (errors 6 and 12), hypotheses discharged. -/
theorem c2_witness :
    (clickScorable twoRecordsState = true ∧ twoRecordsState.trialIdx = 2 ∧
      (twoRecordsState.results.filter
        fun r => r.participant = jsTrim twoRecordsState.participant) =
          [dummyRecord 1 6, dummyRecord 2 12]) ∧
    (onCanvasClick defaultSettings 430 "t3" twoRecordsState).summary =
      some (newSummaryOf defaultSettings 430 "t3"
        (twoRecordsState.eventX.getD 0) twoRecordsState) ∧
    (newSummaryOf defaultSettings 430 "t3"
        (twoRecordsState.eventX.getD 0) twoRecordsState).average_abs_error_px =
      round2 (((dummyRecord 1 6).abs_error_px + (dummyRecord 2 12).abs_error_px +
        (mkTrialRecord defaultSettings 430 "t3"
          (twoRecordsState.eventX.getD 0) twoRecordsState).abs_error_px) / 3) :=
  ⟨⟨rfl, rfl, by simp [twoRecordsState, initialState, dummyRecord, jsTrim_A]⟩,
   (c2_third_click_summary defaultSettings 430 "t3" twoRecordsState rfl rfl).1,
   (c2_third_click_summary defaultSettings 430 "t3" twoRecordsState rfl rfl).2
     (dummyRecord 1 6) (dummyRecord 2 12)
     (by simp [twoRecordsState, initialState, dummyRecord, jsTrim_A])⟩

end FlashLag
